import Mathlib

/-!
Shallow embedding of the Oura Ring Home Assistant integration's update
coordinator (`src/oura_full/coordinator.py`), API pagination
(`src/oura_full/api.py`) and data-model bucket classifiers
(`src/oura_full/models.py`), with theorems settling the specification
claims about them.

Numeric conventions: Python ints become `ℤ`, Python float arithmetic on
score averages becomes exact `ℚ` arithmetic (all quantities involved are
ratios of small integers; the threshold comparisons in the source are
exact in `ℚ`), and Python's banker's rounding `round` becomes `pyRound`.
-/

/-- Python `round`: round half to even, on exact rationals. -/
def pyRound (q : ℚ) : ℤ :=
  let f : ℤ := ⌊q⌋
  let r : ℚ := q - f
  if r < 1/2 then f
  else if r > 1/2 then f + 1
  else if f % 2 = 0 then f else f + 1

/-- Python `max(a, b)` on rationals (the lattice `max` of Mathlib does
not reduce well in the kernel; this is extensionally the same). -/
def qmax (a b : ℚ) : ℚ := if a ≤ b then b else a

/-- Mean of a list of rationals; the source always guards emptiness
before dividing, but we keep a total function (0 on empty). -/
def listMean (l : List ℚ) : ℚ := l.sum / l.length

/-- Python truthiness filter on optional integer scores: a list
comprehension `[r.score for r in rs if r.score]` keeps a score only
when present AND nonzero. Models the comprehensions in
`_calculate_wellness_phase`, `async_calculate_trends`,
`_generate_predictions` guards. -/
def truthyScores (l : List (Option ℤ)) : List ℚ :=
  l.filterMap fun o =>
    match o with
    | some s => if s ≠ 0 then some (s : ℚ) else none
    | none => none

/-- Scores that are merely present (the spec's "skipping absent values"
reading, where a present 0 is kept). -/
def presentScores (l : List (Option ℤ)) : List ℚ :=
  l.filterMap fun o =>
    match o with
    | some s => some (s : ℚ)
    | none => none

/-- Python `sum(xs)/len(xs) if xs else 0`, as in the average computations of
`_calculate_wellness_phase`. -/
def avgOrZero (l : List ℚ) : ℚ :=
  if l = [] then 0 else listMean l

/-!
Section: Wellness phase (`coordinator.py`, `_calculate_wellness_phase`, lines 310-336)

The coordinator only reads `.score` from each record, so the embedding
takes the three score lists directly (newest first, as stored).
-/

/-- Embeds `_calculate_wellness_phase`: early `"maintenance"` when the
readiness or sleep list is empty, then 7-day truthy-filtered averages
and the four-way branch. -/
def calculateWellnessPhase (readiness sleep activity : List (Option ℤ)) : String :=
  if readiness = [] ∨ sleep = [] then "maintenance"
  else
    let avg_readiness := avgOrZero (truthyScores (readiness.take 7))
    let avg_sleep := avgOrZero (truthyScores (sleep.take 7))
    let avg_activity := avgOrZero (truthyScores (activity.take 7))
    if avg_readiness < 60 ∨ avg_sleep < 60 then "recovery"
    else if avg_readiness > 85 ∧ avg_sleep > 80 ∧ avg_activity > 75 then "peak"
    else if avg_readiness > 75 ∧ avg_sleep > 70 then "challenge"
    else "maintenance"

/-- Modelled from the spec's words for claim C1: the reference
classifier over the three 7-day trailing averages, skipping absent
values only (a present 0 is averaged in), empty set averaging to 0,
with no early guard on empty lists. -/
def specWellnessPhase (readiness sleep activity : List (Option ℤ)) : String :=
  let avg_readiness := avgOrZero (presentScores (readiness.take 7))
  let avg_sleep := avgOrZero (presentScores (sleep.take 7))
  let avg_activity := avgOrZero (presentScores (activity.take 7))
  if avg_readiness < 60 ∨ avg_sleep < 60 then "recovery"
  else if avg_readiness > 85 ∧ avg_sleep > 80 ∧ avg_activity > 75 then "peak"
  else if avg_readiness > 75 ∧ avg_sleep > 70 then "challenge"
  else "maintenance"

/-- C1 counterexample: with an empty readiness list (and one sleep
score), the reference function classifies RECOVERY (average 0 < 60) but
the code's early guard returns MAINTENANCE. -/
theorem wellness_phase_empty_readiness_diverges :
    calculateWellnessPhase [] [some 80] [] = "maintenance" ∧
    specWellnessPhase [] [some 80] [] = "recovery" := by
  constructor <;> rfl

theorem truthyScores_eq_presentScores_of_no_zero
    (l : List (Option ℤ)) (h : ∀ x ∈ l, x ≠ some 0) :
    truthyScores l = presentScores l := by
  induction l with
  | nil => rfl
  | cons a t ih =>
      have ha := h a (List.mem_cons_self a t)
      have ht : ∀ x ∈ t, x ≠ some 0 := fun x hx => h x (List.mem_cons_of_mem a hx)
      have ih' := ih ht
      cases a with
      | none =>
          simp only [truthyScores, presentScores, List.filterMap_cons] at ih' ⊢
          simpa using ih'
      | some s =>
          have hs : s ≠ 0 := by
            intro h0; exact ha (by simp [h0])
          simp only [truthyScores, presentScores, List.filterMap_cons] at ih' ⊢
          simp only [ne_eq, ite_not] at ih'
          simp [hs, ih']

theorem take_no_zero {l : List (Option ℤ)} (h : ∀ x ∈ l, x ≠ some 0) (n : ℕ) :
    ∀ x ∈ l.take n, x ≠ some 0 :=
  fun x hx => h x (List.mem_of_mem_take hx)

/-- C1 amended: when both the readiness and sleep lists are nonempty and
no score equals 0 (the code's truthiness filter also drops present
zeros), the code agrees with the spec's reference classifier; and at the
60/60 boundary the result is never RECOVERY (strict `<`). An empty
readiness or sleep list yields MAINTENANCE via the early guard, not
RECOVERY. -/
theorem wellness_phase_matches_spec
    (readiness sleep activity : List (Option ℤ))
    (hr : readiness ≠ []) (hs : sleep ≠ [])
    (hzr : ∀ x ∈ readiness, x ≠ some 0)
    (hzs : ∀ x ∈ sleep, x ≠ some 0)
    (hza : ∀ x ∈ activity, x ≠ some 0) :
    calculateWellnessPhase readiness sleep activity =
      specWellnessPhase readiness sleep activity ∧
    (avgOrZero (truthyScores (readiness.take 7)) = 60 →
     avgOrZero (truthyScores (sleep.take 7)) = 60 →
     calculateWellnessPhase readiness sleep activity ≠ "recovery") := by
  have er := truthyScores_eq_presentScores_of_no_zero _ (take_no_zero hzr 7)
  have es := truthyScores_eq_presentScores_of_no_zero _ (take_no_zero hzs 7)
  have ea := truthyScores_eq_presentScores_of_no_zero _ (take_no_zero hza 7)
  constructor
  · unfold calculateWellnessPhase specWellnessPhase
    rw [er, es, ea]
    simp [hr, hs]
  · intro h60r h60s
    unfold calculateWellnessPhase
    rw [h60r, h60s]
    simp [hr, hs]
    norm_num
    decide

/-- C1 witness: concrete instantiation of `wellness_phase_matches_spec`
(all scores present and nonzero; both agree on "peak"). -/
theorem wellness_phase_matches_spec_witness :
    calculateWellnessPhase [some 90] [some 85] [some 80] =
      specWellnessPhase [some 90] [some 85] [some 80] ∧
    (avgOrZero (truthyScores (List.take 7 [some (90 : ℤ)])) = 60 →
     avgOrZero (truthyScores (List.take 7 [some (85 : ℤ)])) = 60 →
     calculateWellnessPhase [some 90] [some 85] [some 80] ≠ "recovery") :=
  wellness_phase_matches_spec [some 90] [some 85] [some 80]
    (by decide) (by decide) (by decide) (by decide) (by decide)

/-!
Section: Circadian alignment (`coordinator.py`, `_calculate_circadian_alignment`, lines 338-383)

Only `bedtime_start`/`bedtime_end` of each sleep record are read; each
is modelled as an optional (hour, minute) pair as extracted from the
parsed datetime.
-/

structure SleepTimes where
  bedtime_start : Option (ℕ × ℕ)
  bedtime_end : Option (ℕ × ℕ)
deriving DecidableEq

/-- Fractional hours `hour + minute / 60`, as in the source's conversion. -/
def fracHours (p : ℕ × ℕ) : ℚ := p.1 + (p.2 : ℚ) / 60

/-- The result dictionary; the three keys only present in the full
branch are modelled as `Option` fields (`none` when the key is absent,
as in the two guard returns). -/
structure CircadianResult where
  aligned : Bool
  score : ℤ
  optimal_bedtime : String
  optimal_wake : Option String
  bedtime_consistency : Option ℤ
  wake_consistency : Option ℤ
deriving DecidableEq

/-- The guard dictionary `{"aligned": False, "score": 0, "optimal_bedtime": "22:00"}`. -/
def guardCircadian : CircadianResult :=
  { aligned := false, score := 0, optimal_bedtime := "22:00",
    optimal_wake := none, bedtime_consistency := none, wake_consistency := none }

/-- Two-digit zero padding, as in `f"{h:02d}"` (all values formatted
here are < 100). -/
def pad2 (n : ℕ) : String :=
  if n < 10 then String.mk ['0', Nat.digitChar n]
  else String.mk [Nat.digitChar (n / 10), Nat.digitChar (n % 10)]

/-- Python `f"{int(q):02d}:{int((q % 1) * 60):02d}"` for a nonnegative rational. -/
def formatHM (q : ℚ) : String :=
  pad2 (⌊q⌋.toNat) ++ ":" ++ pad2 (⌊(q - ⌊q⌋) * 60⌋.toNat)

/-- Embeds `_calculate_circadian_alignment`. Bedtime samples come from
records with `bedtime_start` present and wake samples, independently,
from records with `bedtime_end` present (the loop appends to the two
lists under separate `if`s); the guard tests `len(bedtimes) < 3`. -/
def calculateCircadianAlignment (sleep : List SleepTimes) : CircadianResult :=
  if sleep = [] then guardCircadian
  else
    let window := sleep.take 14
    let bedtimes := window.filterMap fun s => s.bedtime_start.map fracHours
    let wake_times := window.filterMap fun s => s.bedtime_end.map fracHours
    if bedtimes.length < 3 then guardCircadian
    else
      let avg_bedtime := bedtimes.sum / bedtimes.length
      let bedtime_variance : ℚ :=
        (bedtimes.map fun bt => (bt - avg_bedtime) ^ 2).sum / bedtimes.length
      let avg_wake := if wake_times = [] then 7 else wake_times.sum / wake_times.length
      let wake_variance : ℚ :=
        if wake_times = [] then 1
        else (wake_times.map fun wt => (wt - avg_wake) ^ 2).sum / wake_times.length
      let bedtime_score := qmax 0 (100 - bedtime_variance * 20)
      let wake_score := qmax 0 (100 - wake_variance * 20)
      let overall_score := (bedtime_score + wake_score) / 2
      { aligned := decide (70 < overall_score),
        score := pyRound overall_score,
        optimal_bedtime := formatHM avg_bedtime,
        optimal_wake := some (formatHM avg_wake),
        bedtime_consistency := some (pyRound bedtime_score),
        wake_consistency := some (pyRound wake_score) }

/-- Modelled from the spec's words for claim C3: the reference
computation drawing both sample lists from the up-to-14 most recent
records whose bedtime-start AND bedtime-end are both present, with the
sub-3-qualifying-samples guard. -/
def specCircadianClaim (sleep : List SleepTimes) : CircadianResult :=
  let qualifying := (sleep.take 14).filter fun s =>
    s.bedtime_start.isSome && s.bedtime_end.isSome
  let bedtimes := qualifying.filterMap fun s => s.bedtime_start.map fracHours
  let wake_times := qualifying.filterMap fun s => s.bedtime_end.map fracHours
  if bedtimes.length < 3 then guardCircadian
  else
    let avg_bedtime := bedtimes.sum / bedtimes.length
    let bedtime_variance : ℚ :=
      (bedtimes.map fun bt => (bt - avg_bedtime) ^ 2).sum / bedtimes.length
    let avg_wake := if wake_times = [] then 7 else wake_times.sum / wake_times.length
    let wake_variance : ℚ :=
      if wake_times = [] then 1
      else (wake_times.map fun wt => (wt - avg_wake) ^ 2).sum / wake_times.length
    let bedtime_score := qmax 0 (100 - bedtime_variance * 20)
    let wake_score := qmax 0 (100 - wake_variance * 20)
    let overall_score := (bedtime_score + wake_score) / 2
    { aligned := decide (70 < overall_score),
      score := pyRound overall_score,
      optimal_bedtime := formatHM avg_bedtime,
      optimal_wake := some (formatHM avg_wake),
      bedtime_consistency := some (pyRound bedtime_score),
      wake_consistency := some (pyRound wake_score) }

/-- Three records with a bedtime start of 22:00 and no bedtime end. -/
def circadianCex : List SleepTimes :=
  [⟨some (22, 0), none⟩, ⟨some (22, 0), none⟩, ⟨some (22, 0), none⟩]

/-- C3 counterexample: three records carrying only a bedtime start have
zero records with both timestamps present, so the claimed reference
returns the unaligned guard, but the code counts the three bedtime
samples on their own (zero variance, defaulted wake variance 1.0) and
reports aligned with score 90. -/
theorem circadian_both_present_diverges :
    calculateCircadianAlignment circadianCex =
      { aligned := true, score := 90, optimal_bedtime := "22:00",
        optimal_wake := some "07:00", bedtime_consistency := some 100,
        wake_consistency := some 80 } ∧
    specCircadianClaim circadianCex = guardCircadian := by
  have hb : (circadianCex.take 14).filterMap
      (fun s => Option.map fracHours s.bedtime_start) = [22, 22, 22] := by
    norm_num [circadianCex, fracHours, List.filterMap_cons]
  have hw : (circadianCex.take 14).filterMap
      (fun s => Option.map fracHours s.bedtime_end) = ([] : List ℚ) := by
    norm_num [circadianCex, List.filterMap_cons]
  constructor
  · rw [calculateCircadianAlignment, if_neg (by decide : ¬(circadianCex = []))]
    simp only [hb, hw]
    norm_num [formatHM, pad2, pyRound, qmax]
    decide
  · norm_num [specCircadianClaim, circadianCex, guardCircadian, List.filterMap_cons]

/-- Population mean, as in the spec's step 3. -/
def popMean (l : List ℚ) : ℚ := l.sum / l.length

/-- Population variance, as in the spec's step 3. -/
def popVar (l : List ℚ) : ℚ := popMean (l.map fun x => (x - popMean l) ^ 2)

/-- The spec's step 4: `component_score = max(0, 100 - variance*20)`. -/
def componentScore (v : ℚ) : ℚ := qmax 0 (100 - v * 20)

/-- Modelled from the spec's words for the amended claim C3: bedtime and
wake samples collected independently over the 14 most recent records
(bedtime from records with bedtime-start present, wake from records with
bedtime-end present), guard on fewer than 3 bedtime samples, component
scores from population variance, overall the average of the two,
aligned iff overall exceeds 70. -/
def specCircadianAmended (sleep : List SleepTimes) : CircadianResult :=
  let window := sleep.take 14
  let bedtimes := window.filterMap fun s => s.bedtime_start.map fracHours
  let wakes := window.filterMap fun s => s.bedtime_end.map fracHours
  if bedtimes.length < 3 then guardCircadian
  else
    let bmean := popMean bedtimes
    let wmean := if wakes = [] then 7 else popMean wakes
    let bscore := componentScore (popVar bedtimes)
    let wscore := componentScore (if wakes = [] then 1 else popVar wakes)
    let overall := (bscore + wscore) / 2
    { aligned := decide (70 < overall),
      score := pyRound overall,
      optimal_bedtime := formatHM bmean,
      optimal_wake := some (formatHM wmean),
      bedtime_consistency := some (pyRound bscore),
      wake_consistency := some (pyRound wscore) }

/-- Three identical records, bedtime 23:30, wake 06:15. -/
def circadianSame : List SleepTimes :=
  [⟨some (23, 30), some (6, 15)⟩, ⟨some (23, 30), some (6, 15)⟩,
   ⟨some (23, 30), some (6, 15)⟩]

/-- C3 amended: the code computes exactly the independently-sampled
reference (guard on fewer than 3 bedtime samples; wake mean and
variance defaulting to 7.0 and 1.0 when no wake sample exists; component
scores `max(0, 100 - variance*20)`; overall their average; aligned iff
overall exceeds 70); and three identical bedtimes (zero variance) give a
bedtime component of 100. -/
theorem circadian_alignment_amended :
    (∀ sleep, calculateCircadianAlignment sleep = specCircadianAmended sleep) ∧
    (calculateCircadianAlignment circadianSame).bedtime_consistency = some 100 := by
  constructor
  · intro sleep
    by_cases hnil : sleep = []
    · subst hnil; rfl
    · by_cases hw : (sleep.take 14).filterMap
          (fun s => Option.map fracHours s.bedtime_end) = []
      · simp [calculateCircadianAlignment, specCircadianAmended, popMean, popVar,
          componentScore, hnil, hw, List.length_map]
      · simp [calculateCircadianAlignment, specCircadianAmended, popMean, popVar,
          componentScore, hnil, hw, List.length_map]
  · have hb : (circadianSame.take 14).filterMap
        (fun s => Option.map fracHours s.bedtime_start) = [47/2, 47/2, 47/2] := by
      norm_num [circadianSame, fracHours, List.filterMap_cons]
    have hw : (circadianSame.take 14).filterMap
        (fun s => Option.map fracHours s.bedtime_end) = [25/4, 25/4, 25/4] := by
      norm_num [circadianSame, fracHours, List.filterMap_cons]
    rw [calculateCircadianAlignment, if_neg (by decide : ¬(circadianSame = []))]
    simp only [hb, hw]
    norm_num [pyRound, qmax]

/-!
Section: Trends (`coordinator.py`, `async_calculate_trends`, lines 385-422)

The method repeats one block verbatim for sleep (scores), readiness
(scores), and activity (steps): guard the record list nonempty, filter
truthy values in positions `[:7]` and `[7:14]`, and emit an entry only
when both filtered windows are nonempty.
-/

structure Trend where
  current : ℚ
  previous : ℚ
  direction : String
deriving DecidableEq

/-- One category's block of `async_calculate_trends` applied to that
category's (optional) value list: `None` means the key is absent from
the returned dict. -/
def trendBlock (values : List (Option ℤ)) : Option Trend :=
  if values = [] then none
  else
    let recent := truthyScores (values.take 7)
    let older := truthyScores ((values.drop 7).take 7)
    if recent ≠ [] ∧ older ≠ [] then
      some { current := listMean recent, previous := listMean older,
             direction := if listMean recent > listMean older then "up" else "down" }
    else none

/-- The trend dict: an `Option` per category key. -/
structure TrendMap where
  sleep : Option Trend
  readiness : Option Trend
  activity : Option Trend
deriving DecidableEq

/-- Embeds `async_calculate_trends` over the stored sleep scores,
readiness scores and activity step counts. -/
def asyncCalculateTrends
    (sleepScores readinessScores activitySteps : List (Option ℤ)) : TrendMap :=
  { sleep := trendBlock sleepScores,
    readiness := trendBlock readinessScores,
    activity := trendBlock activitySteps }

/-- Eight records all scoring 80: the previous window (positions 8-14)
holds exactly one sample. -/
def eightyEight : List (Option ℤ) :=
  [some 80, some 80, some 80, some 80, some 80, some 80, some 80, some 80]

/-- C4 counterexample: with 8 records of score 80 the previous window
has exactly 1 sample, fewer than 7, yet the category is present in the
trend map (current 80, previous 80, direction "down" on the tie) —
refuting the claimed omit-below-7-previous-samples rule. -/
theorem trend_included_with_one_previous_sample :
    (asyncCalculateTrends eightyEight [] []).sleep =
      some { current := 80, previous := 80, direction := "down" } ∧
    (truthyScores ((eightyEight.drop 7).take 7)).length = 1 := by
  have hr : truthyScores (eightyEight.take 7) =
      [80, 80, 80, 80, 80, 80, 80] := by
    norm_num [eightyEight, truthyScores, List.filterMap_cons]
  have ho : truthyScores ((eightyEight.drop 7).take 7) = [80] := by
    norm_num [eightyEight, truthyScores, List.filterMap_cons]
  have hm1 : listMean [(80 : ℚ), 80, 80, 80, 80, 80, 80] = 80 := by
    norm_num [listMean]
  have hm2 : listMean [(80 : ℚ)] = 80 := by norm_num [listMean]
  refine ⟨?_, by rw [ho]; rfl⟩
  show trendBlock eightyEight = _
  rw [trendBlock, if_neg (by decide : ¬(eightyEight = []))]
  simp only [hr, ho, hm1, hm2]
  norm_num
  intro h
  exact absurd h (by decide)

/-- Modelled from the amended claim C4: a category's entry exists iff
both the recent-7 and previous-7 windows contain at least one present
nonzero value (zero scores being dropped by the code's truthiness
test); when it exists, current/previous are the population means of
the two filtered windows and direction is "up" iff current exceeds
previous (ties "down"). -/
def specTrendAmended (values : List (Option ℤ)) : Option Trend :=
  let recentVals := truthyScores (values.take 7)
  let prevVals := truthyScores ((values.drop 7).take 7)
  if recentVals = [] ∨ prevVals = [] then none
  else
    some { current := popMean recentVals, previous := popMean prevVals,
           direction := if popMean prevVals < popMean recentVals then "up" else "down" }

theorem trendBlock_eq_specTrendAmended (l : List (Option ℤ)) :
    trendBlock l = specTrendAmended l := by
  by_cases hnil : l = []
  · subst hnil
    simp [trendBlock, specTrendAmended, truthyScores]
  · by_cases h1 : truthyScores (l.take 7) = []
    · simp [trendBlock, specTrendAmended, hnil, h1]
    · by_cases h2 : truthyScores ((l.drop 7).take 7) = []
      · simp [trendBlock, specTrendAmended, hnil, h1, h2]
      · simp [trendBlock, specTrendAmended, hnil, h1, h2, listMean, popMean]

/-- C4 amended: for each of sleep, readiness, and activity (steps), the
trend map's entry equals the amended reference: present exactly when
both windows retain a present nonzero value, with means of the filtered
windows and tie-goes-"down" direction; the category is omitted exactly
when a window filters to empty (not when previous-window samples number
below 7). -/
theorem trends_amended :
    ∀ s r a : List (Option ℤ),
      asyncCalculateTrends s r a =
        { sleep := specTrendAmended s, readiness := specTrendAmended r,
          activity := specTrendAmended a } := by
  intro s r a
  unfold asyncCalculateTrends
  rw [trendBlock_eq_specTrendAmended, trendBlock_eq_specTrendAmended,
    trendBlock_eq_specTrendAmended]

/-!
Section: Predictions (`coordinator.py`, `_generate_predictions`, lines 521-549)
-/

/-- Python `x or 70` on an optional score: `None` and `0` are falsy and
give the default 70. -/
def scoreOr70 (o : Option ℤ) : ℤ :=
  match o with
  | some s => if s = 0 then 70 else s
  | none => 70

structure Predictions where
  tomorrow_readiness : ℤ
  recommended_bedtime_adjustment : ℤ
deriving DecidableEq

/-- Embeds `_generate_predictions` on the three stored record lists
(only the newest record's score is read from each). `none` models the
empty predictions dict returned when any list is empty. -/
def generatePredictions
    (readiness sleep activity : List (Option ℤ)) : Option Predictions :=
  match readiness, sleep, activity with
  | r0 :: _, s0 :: _, a0 :: _ =>
    let today_readiness := scoreOr70 r0
    let today_sleep := scoreOr70 s0
    let today_activity := scoreOr70 a0
    let predicted_readiness : ℚ :=
      (today_readiness : ℚ) * (3/10) + (today_sleep : ℚ) * (1/2) +
        (100 - (today_activity : ℚ) * (1/5))
    some { tomorrow_readiness := pyRound predicted_readiness,
           recommended_bedtime_adjustment :=
             if today_readiness < 70 then -30
             else if today_readiness > 85 then 0
             else -15 }
  | _, _, _ => none

/-- Modelled from the spec's words for claim C6:
`predicted_readiness = readiness*0.3 + sleep*0.5 + (100 - activity*0.2)`. -/
def specPredictedReadiness (r s a : ℚ) : ℚ :=
  r * (3/10) + s * (1/2) + (100 - a * (1/5))

/-- C6 counterexample: with today's readiness score equal to 0 (sleep
80, activity 60) the claimed formula over the record's scores gives
round(0*0.3 + 80*0.5 + 88) = 128 and an adjustment of -30 (readiness
0 < 70), but the code defaults the falsy 0 to 70, predicting
round(21 + 40 + 88) = 149 with adjustment -15. -/
theorem predictions_zero_score_diverges :
    generatePredictions [some 0] [some 80] [some 60] =
      some { tomorrow_readiness := 149, recommended_bedtime_adjustment := -15 } ∧
    pyRound (specPredictedReadiness 0 80 60) = 128 := by
  constructor
  · rw [generatePredictions]
    norm_num [scoreOr70, pyRound]
  · norm_num [specPredictedReadiness, pyRound]

/-- C6 amended: whenever all three lists are nonempty, the prediction
equals the claimed formula applied to the newest scores after each
absent-or-zero score is defaulted to 70 (Python `score or 70`), rounded;
and the bedtime adjustment is -30 / 0 / -15 according to whether the
defaulted readiness is below 70 / above 85 / in between. -/
theorem predictions_amended
    (r0 s0 a0 : Option ℤ) (rs ss sa : List (Option ℤ)) :
    generatePredictions (r0 :: rs) (s0 :: ss) (a0 :: sa) =
      some { tomorrow_readiness :=
               pyRound (specPredictedReadiness (scoreOr70 r0) (scoreOr70 s0)
                 (scoreOr70 a0)),
             recommended_bedtime_adjustment :=
               if scoreOr70 r0 < 70 then -30
               else if scoreOr70 r0 > 85 then 0
               else -15 } := by
  rw [generatePredictions, specPredictedReadiness]

/-!
Section: Pagination (`api.py`, `_paginated_request`, lines 137-163)

One server response per issued request: `none` models a falsy response
(e.g. the `None` an HTTP 404 produces), `some p` a JSON dict whose
`data` key may be absent and whose `next_token` may be absent. The
responses are listed in request order; the loop stops as soon as a
response is falsy, lacks `data`, or omits `next_token`.
-/

structure PageResponse (α : Type) where
  data : Option (List α)
  next_token : Option String

/-- Embeds the `while True` loop of `_paginated_request`: extend the
accumulator with each page's `data` and follow `next_token` until a
response omits it (or is falsy / lacks `data`). -/
def paginatedRequest {α : Type} : List (Option (PageResponse α)) → List α
  | [] => []
  | none :: _ => []
  | some p :: rest =>
    match p.data with
    | none => []
    | some items =>
      match p.next_token with
      | none => items
      | some _ => items ++ paginatedRequest rest

/-- C7: following the cursor, the assembled result is the concatenation
of all pages' data in server order: for any run of pages that each carry
a `next_token` followed by a final page without one, the result is the
join of all the data lists; in particular for three pages with tokens on
the first two only, it is `page1 ++ page2 ++ page3`. -/
theorem paginated_request_concatenates :
    (∀ (α : Type) (pages : List (List α × String)) (lastData : List α),
      paginatedRequest
          ((pages.map fun p => some ⟨some p.1, some p.2⟩) ++
            [some ⟨some lastData, none⟩]) =
        (pages.map Prod.fst).flatten ++ lastData) ∧
    (∀ (d1 d2 d3 : List ℕ) (t1 t2 : String),
      paginatedRequest
          [some ⟨some d1, some t1⟩, some ⟨some d2, some t2⟩,
           some ⟨some d3, none⟩] =
        d1 ++ d2 ++ d3) := by
  have main : ∀ (α : Type) (pages : List (List α × String)) (lastData : List α),
      paginatedRequest
          ((pages.map fun p => some ⟨some p.1, some p.2⟩) ++
            [some ⟨some lastData, none⟩]) =
        (pages.map Prod.fst).flatten ++ lastData := by
    intro α pages lastData
    induction pages with
    | nil => rfl
    | cons p rest ih =>
        simp only [List.map_cons, List.cons_append, paginatedRequest,
          List.flatten_cons, List.append_eq, ih, List.append_assoc]
  refine ⟨main, ?_⟩
  intro d1 d2 d3 t1 t2
  have h := main ℕ [(d1, t1), (d2, t2)] d3
  simpa [List.flatten, List.append_assoc] using h

/-!
Section: Fetch orchestration (`coordinator.py`, `_async_update_data`, lines 70-137)

The six categories whose fetch helpers store a record list on the
coordinator (`self.<cat>_data`) are the ones `_get_cached_data` serves
(lines 584-594). The SpO2 helper (lines 279-288) swallows every
exception and returns `[]`; the temperature helper always returns `[]`.
Record contents are irrelevant to orchestration, so lists are over an
arbitrary element type. Fetch outcomes model what each helper's API
calls produce: `ok` with fresh records, or `error` with the exception's
string rendering.
-/

inductive Category where
  | sleep
  | readiness
  | activity
  | heartRate
  | stress
  | workouts
deriving DecidableEq

/-- The fixed processing order of the six stateful categories. -/
def Category.all : List Category :=
  [.sleep, .readiness, .activity, .heartRate, .stress, .workouts]

theorem Category.mem_all (c : Category) : c ∈ Category.all := by
  cases c <;> simp [Category.all]

/-- Whether `pat` occurs at the head of `l`. -/
def listHasPre : List Char → List Char → Bool
  | [], _ => true
  | _ :: _, [] => false
  | p :: ps, c :: cs => p == c && listHasPre ps cs

/-- Whether `pat` occurs contiguously anywhere in `l` (Python `pat in s`). -/
def listHasSub (pat : List Char) : List Char → Bool
  | [] => pat.isEmpty
  | c :: cs => listHasPre pat (c :: cs) || listHasSub pat cs

/-- Line 98: `"401" in str(result) or "authentication" in str(result).lower()`
(`str.lower()` modelled characterwise; identical on these ASCII messages). -/
def indicatesAuth (s : String) : Bool :=
  listHasSub "401".data s.data ||
    listHasSub "authentication".data (s.data.map Char.toLower)

/-- The resolved results of one cycle's eight gathered fetches: the six
stateful categories plus SpO2 (temperature always resolves to `[]` and
cannot fail, so it needs no input). -/
structure FetchOutcomes (α : Type) where
  cat : Category → Except String (List α)
  spo2 : Except String (List α)

/-- The data dict assembled by the processing loop (metadata keys and
the constant temperature entry omitted). -/
structure CycleData (α : Type) where
  cat : Category → List α
  spo2 : List α

/-- How a cycle resolves: `ConfigEntryAuthFailed` propagating out of the
processing loop, or the assembled data returned to the host. -/
inductive CycleOutcome (α : Type) where
  | authFailed
  | success (data : CycleData α)

/-- Coordinator state after a cycle: the six cached record lists and the
`update_errors` counter. -/
structure CycleResult (α : Type) where
  state : Category → List α
  errors : ℕ
  outcome : CycleOutcome α

/-- Line 96-99: some gathered result is an exception whose rendering
indicates an authentication failure. -/
def hasAuthErrorOutcome {α : Type}
    (o : Category → Except String (List α)) : Bool :=
  Category.all.any fun c =>
    match o c with
    | .error e => indicatesAuth e
    | .ok _ => false

/-- The cached lists after `asyncio.gather` settles: every successful
stateful fetch helper has assigned `self.<cat>_data` before the
processing loop runs; a failing helper re-raises without assigning,
leaving the old list. -/
def postGather {α : Type} (s0 : Category → List α) (o : FetchOutcomes α) :
    Category → List α := fun c =>
  match o.cat c with
  | .ok v => v
  | .error _ => s0 c

/-- The data dict the processing loop assembles when no auth error is
present: fresh records for successes, `_get_cached_data` (the stored
list, unchanged for a failed category) otherwise; the SpO2 entry is the
swallowed helper's result. -/
def publishedData {α : Type} (s1 : Category → List α) (o : FetchOutcomes α) :
    CycleData α :=
  { cat := fun c =>
      match o.cat c with
      | .ok v => v
      | .error _ => s1 c,
    spo2 :=
      match o.spo2 with
      | .ok v => v
      | .error _ => [] }

/-- Embeds `_async_update_data` as a transition on the cached record
lists, given the cycle's fetch outcomes.

* Line 74 sets `self.update_errors = 0` unconditionally as the first
  statement of the `try` block (despite its comment saying "on
  successful update").
* The SpO2 helper swallows any exception and resolves to `[]`, so its
  result is never an exception in the processing loop.
* The processing loop raises `ConfigEntryAuthFailed` if any category's
  result is an auth-indicating exception; otherwise it returns the
  assembled data dict.
* On the auth path the dedicated `except ConfigEntryAuthFailed` clause
  re-raises without touching the counter, so the counter stays 0. -/
def asyncUpdateData {α : Type} (s0 : Category → List α) (o : FetchOutcomes α)
    (_prevErrors : ℕ) : CycleResult α :=
  let s1 := postGather s0 o
  if hasAuthErrorOutcome o.cat then
    { state := s1, errors := 0, outcome := .authFailed }
  else
    { state := s1, errors := 0, outcome := .success (publishedData s1 o) }

/-- A run of poll cycles: thread the cached lists and the error counter
through successive calls of `_async_update_data`. -/
def runCycles {α : Type} (s0 : Category → List α) (e0 : ℕ)
    (os : List (FetchOutcomes α)) : (Category → List α) × ℕ :=
  os.foldl (fun p o =>
    let r := asyncUpdateData p.1 o p.2
    (r.state, r.errors)) (s0, e0)

/-- Concrete pre-cycle cache: one old sleep record. -/
def authCexState : Category → List ℕ := fun c =>
  match c with
  | .sleep => [0]
  | _ => []

/-- Concrete cycle outcomes: the sleep fetch succeeds with a fresh
record while the readiness fetch raises HTTP 401. -/
def authCexOutcomes : FetchOutcomes ℕ where
  cat := fun c =>
    match c with
    | .sleep => .ok [1]
    | .readiness => .error "401, message='Unauthorized'"
    | _ => .ok []
  spo2 := .ok []

/-- C2 counterexample: a 401 on the readiness fetch makes the cycle
resolve to the auth failure, yet the sleep list — whose fetch succeeded
— has already been replaced by its fetch helper (old `[0]`, new `[1]`),
so "no category's record list is mutated" fails. -/
theorem auth_failure_still_mutates_lists :
    (asyncUpdateData authCexState authCexOutcomes 0).outcome =
      CycleOutcome.authFailed ∧
    authCexState Category.sleep = [0] ∧
    (asyncUpdateData authCexState authCexOutcomes 0).state Category.sleep = [1] := by
  refine ⟨?_, rfl, ?_⟩
  · rfl
  · rfl

/-- C2 amended: if any category's fetch fails with an auth-indicating
error, the cycle resolves to the authentication failure and publishes no
data; every failed category's list is left at its pre-cycle value, but
every category whose fetch succeeded has its list already replaced with
the fresh records (the helpers assign before the auth check runs). -/
theorem auth_failure_aborts_cycle {α : Type} (s0 : Category → List α)
    (o : FetchOutcomes α) (n : ℕ)
    (h : ∃ c e, o.cat c = .error e ∧ indicatesAuth e = true) :
    (asyncUpdateData s0 o n).outcome = CycleOutcome.authFailed ∧
    (∀ c e, o.cat c = .error e → (asyncUpdateData s0 o n).state c = s0 c) ∧
    (∀ c v, o.cat c = .ok v → (asyncUpdateData s0 o n).state c = v) := by
  have hauth : hasAuthErrorOutcome o.cat = true := by
    obtain ⟨c, e, hce, hie⟩ := h
    unfold hasAuthErrorOutcome
    rw [List.any_eq_true]
    exact ⟨c, Category.mem_all c, by rw [hce]; exact hie⟩
  refine ⟨?_, ?_, ?_⟩
  · unfold asyncUpdateData
    rw [if_pos hauth]
  · intro c e hc
    unfold asyncUpdateData
    rw [if_pos hauth]
    simp [postGather, hc]
  · intro c v hc
    unfold asyncUpdateData
    rw [if_pos hauth]
    simp [postGather, hc]

/-- C2 witness: `auth_failure_aborts_cycle` at the concrete
counterexample cycle. -/
theorem auth_failure_aborts_cycle_witness :
    (asyncUpdateData authCexState authCexOutcomes 0).outcome =
      CycleOutcome.authFailed ∧
    (∀ c e, authCexOutcomes.cat c = .error e →
      (asyncUpdateData authCexState authCexOutcomes 0).state c = authCexState c) ∧
    (∀ c v, authCexOutcomes.cat c = .ok v →
      (asyncUpdateData authCexState authCexOutcomes 0).state c = v) :=
  auth_failure_aborts_cycle authCexState authCexOutcomes 0
    ⟨Category.readiness, "401, message='Unauthorized'", rfl, by decide⟩

/-- C5: a single non-auth fetch failure leaves the cycle successful, the
failed category's cached list and published entry equal to the previous
cycle's list, and every succeeding category's list and entry replaced by
the freshly fetched records. -/
theorem transient_failure_preserves_category {α : Type}
    (s0 : Category → List α) (o : FetchOutcomes α) (n : ℕ)
    (c0 : Category) (e : String)
    (hfail : o.cat c0 = .error e) (hnotauth : indicatesAuth e = false)
    (hrest : ∀ c, c ≠ c0 → ∃ v, o.cat c = .ok v) :
    ∃ d, (asyncUpdateData s0 o n).outcome = CycleOutcome.success d ∧
      (asyncUpdateData s0 o n).state c0 = s0 c0 ∧
      d.cat c0 = s0 c0 ∧
      ∀ c v, o.cat c = .ok v →
        (asyncUpdateData s0 o n).state c = v ∧ d.cat c = v := by
  have hcond : ¬(hasAuthErrorOutcome o.cat = true) := by
    rw [hasAuthErrorOutcome, List.any_eq_true]
    rintro ⟨c, -, hc⟩
    by_cases hcc : c = c0
    · subst hcc
      rw [hfail] at hc
      simp [hnotauth] at hc
    · obtain ⟨v, hv⟩ := hrest c hcc
      rw [hv] at hc
      simp at hc
  refine ⟨publishedData (postGather s0 o) o, ?_, ?_, ?_, ?_⟩
  · unfold asyncUpdateData
    rw [if_neg hcond]
  · unfold asyncUpdateData
    rw [if_neg hcond]
    simp [postGather, hfail]
  · simp [publishedData, postGather, hfail]
  · intro c v hc
    constructor
    · unfold asyncUpdateData
      rw [if_neg hcond]
      simp [postGather, hc]
    · simp [publishedData, hc]

/-- Pre-cycle cache for the transient-failure scenario: one old
activity record. -/
def transState : Category → List ℕ := fun c =>
  match c with
  | .activity => [7]
  | _ => []

/-- Concrete outcomes: only the activity fetch fails, with a timeout. -/
def transOutcomes : FetchOutcomes ℕ where
  cat := fun c =>
    match c with
    | .activity => .error "Request timeout after 3 retries"
    | _ => .ok [5]
  spo2 := .ok []

/-- C5 witness: `transient_failure_preserves_category` at the concrete
timeout-on-activity cycle. -/
theorem transient_failure_preserves_category_witness :
    ∃ d, (asyncUpdateData transState transOutcomes 0).outcome =
        CycleOutcome.success d ∧
      (asyncUpdateData transState transOutcomes 0).state Category.activity =
        transState Category.activity ∧
      d.cat Category.activity = transState Category.activity ∧
      ∀ c v, transOutcomes.cat c = .ok v →
        (asyncUpdateData transState transOutcomes 0).state c = v ∧
          d.cat c = v :=
  transient_failure_preserves_category transState transOutcomes 0
    Category.activity "Request timeout after 3 retries" rfl (by decide)
    (fun c hc => by
      cases c
      case activity => exact absurd rfl hc
      all_goals exact ⟨[5], rfl⟩)

/-- A cycle whose readiness fetch hits HTTP 401. -/
def authFailCycle : FetchOutcomes ℕ := authCexOutcomes

/-- C8: the counter does not track consecutive failures. Three cycles in
a row fail with an auth error, yet the counter ends at 0 — because line
74 zeroes `update_errors` at the start of every cycle (despite its
comment "Reset error counter on successful update") and the auth path
re-raises without incrementing. Even starting from a counter of 5, one
failing cycle leaves it at 0, not 6. -/
theorem consecutive_failures_leave_counter_at_zero :
    (runCycles (fun _ => ([] : List ℕ)) 0
      [authFailCycle, authFailCycle, authFailCycle]).2 = 0 ∧
    (asyncUpdateData (fun _ => ([] : List ℕ)) authFailCycle 5).errors = 0 ∧
    (asyncUpdateData (fun _ => ([] : List ℕ)) authFailCycle 5).outcome =
      CycleOutcome.authFailed := by
  refine ⟨rfl, rfl, rfl⟩

/-- C9: any SpO2 fetch failure — including an HTTP 401 — is swallowed:
the cycle still succeeds (given the other categories succeed) and the
published SpO2 entry is the empty list, independent of all cached
state. -/
theorem spo2_failure_swallowed {α : Type} (s0 : Category → List α)
    (o : FetchOutcomes α) (n : ℕ) (e : String)
    (hspo2 : o.spo2 = .error e)
    (hok : ∀ c, ∃ v, o.cat c = .ok v) :
    ∃ d, (asyncUpdateData s0 o n).outcome = CycleOutcome.success d ∧
      d.spo2 = [] := by
  have hcond : ¬(hasAuthErrorOutcome o.cat = true) := by
    rw [hasAuthErrorOutcome, List.any_eq_true]
    rintro ⟨c, -, hc⟩
    obtain ⟨v, hv⟩ := hok c
    rw [hv] at hc
    simp at hc
  refine ⟨publishedData (postGather s0 o) o, ?_, ?_⟩
  · unfold asyncUpdateData
    rw [if_neg hcond]
  · simp [publishedData, hspo2]

/-- All six categories succeed while the SpO2 fetch raises a 401. -/
def spo2Outcomes : FetchOutcomes ℕ where
  cat := fun _ => .ok [3]
  spo2 := .error "401 authentication failed"

/-- C9 witness: `spo2_failure_swallowed` at the concrete
401-on-SpO2 cycle. -/
theorem spo2_failure_swallowed_witness :
    ∃ d, (asyncUpdateData (fun _ => ([] : List ℕ)) spo2Outcomes 0).outcome =
        CycleOutcome.success d ∧ d.spo2 = [] :=
  spo2_failure_swallowed (fun _ => ([] : List ℕ)) spo2Outcomes 0
    "401 authentication failed" rfl (fun _ => ⟨[3], rfl⟩)

/-!
Section: Bucket classifiers (`models.py`: `readiness_level` lines 161-172,
`sleep_quality` lines 98-109, `stress_level` lines 289-298)

Each property opens with `if not self.score:`, which is taken both when
the score is `None` and when it is `0` (Python truthiness).
-/

inductive ReadinessLevel where
  | optimal
  | high
  | medium
  | low
deriving DecidableEq

/-- Embeds `ReadinessData.readiness_level`. -/
def readinessLevel (score : Option ℤ) : ReadinessLevel :=
  match score with
  | none => .medium
  | some s =>
    if s = 0 then .medium
    else if s ≥ 85 then .optimal
    else if s ≥ 70 then .high
    else if s ≥ 60 then .medium
    else .low

/-- Embeds `SleepData.sleep_quality` (the enum values' strings). -/
def sleep_quality (score : Option ℤ) : String :=
  match score with
  | none => "fair"
  | some s =>
    if s = 0 then "fair"
    else if s ≥ 85 then "excellent"
    else if s ≥ 70 then "good"
    else if s ≥ 60 then "fair"
    else "poor"

/-- Embeds `StressData.stress_level`. -/
def stress_level (score : Option ℤ) : String :=
  match score with
  | none => "unknown"
  | some s =>
    if s = 0 then "unknown"
    else if s < 30 then "low"
    else if s < 60 then "moderate"
    else "high"

/-- C10: a present score of 0 takes each classifier's missing-score
default — readiness MEDIUM (not LOW), sleep quality "fair" (not
"poor"), stress level "unknown" (not "low") — identically to an absent
score. -/
theorem zero_score_treated_as_absent :
    readinessLevel (some 0) = ReadinessLevel.medium ∧
    readinessLevel (some 0) ≠ ReadinessLevel.low ∧
    readinessLevel (some 0) = readinessLevel none ∧
    sleep_quality (some 0) = "fair" ∧
    sleep_quality (some 0) ≠ "poor" ∧
    sleep_quality (some 0) = sleep_quality none ∧
    stress_level (some 0) = "unknown" ∧
    stress_level (some 0) ≠ "low" ∧
    stress_level (some 0) = stress_level none := by
  refine ⟨rfl, by decide, rfl, rfl, by decide, rfl, rfl, by decide, rfl⟩
